import Mathlib

/-!
Verification of the prediction-serving request path and the in-process
feature-statistics aggregation of the ML serving application
(src/app/main.py and src/app/metrics.py), via a shallow embedding.

Feature dictionaries are modelled as association lists from feature name
to a rational value; Python exceptions are modelled with Except; the
Prometheus gauges and counters are modelled as functions from label
tuples to values inside an explicit MetricsState record.
-/

namespace MLApp

/-- A feature mapping (Python dict from feature name to float), modelled as
an association list preserving insertion order. -/
abbrev Feats := List (String × ℚ)

/-- Dictionary lookup: first binding of the key wins (Python dict keys are
unique, so this coincides with dict access). -/
def flookup : Feats → String → Option ℚ
  | [], _ => none
  | (k, v) :: rest, key => if key = k then some v else flookup rest key

/-- Python membership test: the key is present in the dict. -/
def hasKey (p : Feats) (k : String) : Bool :=
  (flookup p k).isSome

/-- The list of keys of a feature mapping (Python dict.keys order). -/
def keysOf (p : Feats) : List String :=
  p.map Prod.fst

/-- metrics.py line 66: the buffer capacity. -/
def _BUFFER_SIZE : Nat := 100

/-- The observable metrics state of the metrics module: the prediction
counter keyed by (model name, class name), the single module-global
predictions buffer, the two per-feature gauges keyed by
(model name, feature), and the latency-summary observation count.
The source writes `variance ** 0.5` to the stddev gauge; since the square
root is a real number we track the radicand (the variance) in
featureStddevSq: the gauge holds exactly the square root of the stored
value, so statements about which variance is emitted capture the gauge. -/
structure MetricsState where
  predictionCount : String → String → Nat
  buffer : List Feats
  featureMean : String → String → Option ℚ
  featureStddevSq : String → String → Option ℚ
  latencyObsCount : String → Nat

/-- The metrics state at process start: all counters zero, empty buffer,
no gauge set. -/
def initState : MetricsState :=
  { predictionCount := fun _ _ => 0
    buffer := []
    featureMean := fun _ _ => none
    featureStddevSq := fun _ _ => none
    latencyObsCount := fun _ => 0 }

/-- Point update of a labelled gauge. -/
def setG (g : String → String → Option ℚ) (m f : String) (v : ℚ) :
    String → String → Option ℚ :=
  fun m' f' => if m' = m ∧ f' = f then some v else g m' f'

/-- Increment of a labelled counter. -/
def bump (c : String → String → Nat) (m k : String) : String → String → Nat :=
  fun m' k' => if m' = m ∧ k' = k then c m' k' + 1 else c m' k'

/-- Increment of a singly-labelled counter. -/
def bump1 (c : String → Nat) (m : String) : String → Nat :=
  fun m' => if m' = m then c m' + 1 else c m'

/-- metrics.py lines 119-120: the eviction loop
`while len(_PREDICTIONS_BUFFER) > _BUFFER_SIZE: _PREDICTIONS_BUFFER.pop(0)`,
written with explicit fuel (each iteration shortens the list, so fuel equal
to the initial length always suffices). -/
def evictFuel : Nat → List Feats → List Feats
  | 0, l => l
  | n + 1, l => if _BUFFER_SIZE < l.length then evictFuel n l.tail else l

/-- The eviction loop applied with sufficient fuel. -/
def evictLoop (l : List Feats) : List Feats :=
  evictFuel l.length l

/-- metrics.py lines 142-146: the values of one feature gathered across the
buffered predictions, `[p.get(feature_name, 0) for p in predictions if
feature_name in p]` — entries lacking the key are filtered out, and the
`get` default 0 is therefore never consulted. -/
def gatherValues (preds : List Feats) (name : String) : List ℚ :=
  (preds.filter (fun p => hasKey p name)).map (fun p => (flookup p name).getD 0)

/-- metrics.py line 152: `sum(values) / len(values)`. -/
def listMean (l : List ℚ) : ℚ :=
  l.sum / (l.length : ℚ)

/-- metrics.py line 158: `sum((x - mean_value) ** 2 for x in values) / len(values)`,
the population variance (the source then writes its square root to the
stddev gauge). -/
def listPopVar (l : List ℚ) : ℚ :=
  (l.map (fun x => (x - listMean l) ^ 2)).sum / (l.length : ℚ)

/-- metrics.py lines 148-162: the per-feature loop body. When the gathered
value list is empty the feature is skipped; otherwise the mean gauge is set,
and when more than one value is present the stddev gauge is set as well. -/
def statStep (m : String) (preds : List Feats) (st : MetricsState) (n : String) :
    MetricsState :=
  if (gatherValues preds n).isEmpty then st
  else if 1 < (gatherValues preds n).length then
    { st with
      featureMean := setG st.featureMean m n (listMean (gatherValues preds n))
      featureStddevSq := setG st.featureStddevSq m n (listPopVar (gatherValues preds n)) }
  else
    { st with featureMean := setG st.featureMean m n (listMean (gatherValues preds n)) }

/-- metrics.py lines 127-162, `_update_feature_statistics`: no-op on an
empty buffer; otherwise iterate over the feature names of `predictions[0]`
(the OLDEST buffered entry) and update the gauges per feature. -/
def updateFeatureStatistics (m : String) (preds : List Feats) (s : MetricsState) :
    MetricsState :=
  if preds.isEmpty then s
  else (keysOf (preds.headD [])).foldl (statStep m preds) s

/-- metrics.py lines 103-124, `record_prediction`: bump the prediction
counter, append the features to the global buffer, evict down to capacity,
recompute feature statistics from the buffer, observe a latency value. -/
def record_prediction (m : String) (features : Feats) (predictedClass : String)
    (s : MetricsState) : MetricsState :=
  let s1 : MetricsState :=
    { s with predictionCount := bump s.predictionCount m predictedClass }
  let s2 : MetricsState :=
    { s1 with buffer := evictLoop (s1.buffer ++ [features]) }
  let s3 : MetricsState := updateFeatureStatistics m s2.buffer s2
  { s3 with latencyObsCount := bump1 s3.latencyObsCount m }

/-- A sequence of record_prediction calls
(model name, features, predicted class). -/
def runPredictions (recs : List (String × Feats × String)) (s : MetricsState) :
    MetricsState :=
  recs.foldl (fun st r => record_prediction r.1 r.2.1 r.2.2 st) s

/-- A Python exception as observed by the handler boundary: either an
HTTPException carrying a status code and detail, or any other exception
carrying its message. In the source both are subclasses of Exception, so
the blanket `except Exception` in `predict` catches both kinds. -/
inductive PyExc where
  | httpExc (status : Nat) (detail : String)
  | runtimeExc (msg : String)
deriving DecidableEq

/-- Python str() of an exception. Starlette HTTPException renders as
"status: detail"; a plain exception renders as its message. -/
def strOfExc : PyExc → String
  | .httpExc s d => toString s ++ ": " ++ d
  | .runtimeExc m => m

/-- Stringification of a predicted label, Python str(). The exact decimal
rendering of a float is not semantically relevant to any claim; only that
the label is converted to a string. -/
def pyStr (q : ℚ) : String :=
  toString q

/-- A loaded predictor (main.py probes these attributes dynamically):
an optional declared feature schema (feature_names_in_ when present),
a fallible predict on a single row, an optional fallible predict_proba,
and the class list. Fallibility (Except String) models the call raising. -/
structure Predictor where
  feature_names_in_ : Option (List String)
  predict : List ℚ → Except String ℚ
  predict_proba : Option (List ℚ → Except String (List ℚ))
  classes_ : List ℚ

/-- main.py lines 72-81: the response model. All four fields are required
by the pydantic model, so every successful response carries a probability
value (0.0 when the predictor lacks predict_proba) and there is no
confidence field at all. -/
structure PredictionResponse where
  prediction : String
  probability : ℚ
  model_name : String
  model_version : String
deriving DecidableEq

/-- Python `list.index`: position of the first occurrence, none when the
element is absent (ValueError in the source). -/
def idxOf : List ℚ → ℚ → Option Nat
  | [], _ => none
  | x :: rest, v => if v = x then some 0 else (idxOf rest v).map (· + 1)

/-- main.py line 169: `set(model.feature_names_in_) - set(features.keys())`,
the declared features absent from the request (here listed in schema order;
the source joins a Python set, whose iteration order is unspecified). -/
def missingOf (schema : List String) (features : Feats) : List String :=
  schema.filter (fun n => (flookup features n).isNone)

/-- main.py lines 166-182: schema validation and construction of the single
feature row. With a declared schema, a nonempty missing set raises
HTTPException(400, ...); otherwise the row is laid out in schema order.
Without a schema the row uses the provided order. -/
def buildX (model : Predictor) (features : Feats) : Except PyExc (List ℚ) :=
  match model.feature_names_in_ with
  | some schema =>
      if (missingOf schema features).isEmpty then
        .ok (schema.map (fun n => (flookup features n).getD 0))
      else
        .error (.httpExc 400 ("Missing required features: " ++
          String.intercalate ", " (missingOf schema features)))
  | none => .ok (features.map Prod.snd)

/-- main.py lines 188-192: probability defaults to 0.0; when the predictor
has predict_proba, obtain the probability row, look the predicted label up
in classes_ (ValueError when absent), and index into the row (IndexError
when out of range). Any of these failures propagates out of this step and
is caught only by the blanket handler boundary. -/
def computeProbability (model : Predictor) (X : List ℚ) (pred : ℚ) :
    Except PyExc ℚ :=
  match model.predict_proba with
  | none => .ok 0
  | some proba =>
      match proba X with
      | .error m => .error (.runtimeExc m)
      | .ok probs =>
          match idxOf model.classes_ pred with
          | none => .error (.runtimeExc (pyStr pred ++ " is not in list"))
          | some i =>
              match probs.get? i with
              | none => .error (.runtimeExc "list index out of range")
              | some p => .ok p

/-- main.py lines 162-206: the body of the `try` block of the handler —
validate, build the row, predict, compute the probability, record the
prediction (with the model base name `model_name.split('.')[0]`), and
assemble the response. Any raised exception (including the
HTTPException(400) from validation) escapes to the boundary. -/
def predictBody (model : Predictor) (modelName : String) (features : Feats)
    (s : MetricsState) : Except PyExc (PredictionResponse × MetricsState) :=
  match buildX model features with
  | .error e => .error e
  | .ok X =>
      match model.predict X with
      | .error m => .error (.runtimeExc m)
      | .ok pred =>
          match computeProbability model X pred with
          | .error e => .error e
          | .ok probability =>
              let s' := record_prediction ((modelName.splitOn ".").headD "")
                features (pyStr pred) s
              .ok ({ prediction := pyStr pred
                     probability := probability
                     model_name := modelName
                     model_version := "1.0.0" }, s')

/-- main.py lines 148-210: the `try/except` boundary of `predict`. The
`except Exception` clause catches EVERY exception raised in the body —
including the HTTPException(400) raised for missing features, since
HTTPException subclasses Exception — and converts it into
HTTPException(500, "Prediction error: " + str(e)). On the error path the
metrics state is untouched. -/
def predictHandler (model : Predictor) (modelName : String) (features : Feats)
    (s : MetricsState) :
    Except (Nat × String) PredictionResponse × MetricsState :=
  match predictBody model modelName features s with
  | .ok (resp, s') => (.ok resp, s')
  | .error e => (.error (500, "Prediction error: " ++ strOfExc e), s)

/-- main.py line 159: `model_name = request.model_name or DEFAULT_MODEL` —
a missing or empty (falsy) model name falls back to the default. -/
def resolveName (reqName : Option String) (defaultModel : String) : String :=
  match reqName with
  | none => defaultModel
  | some n => if n = "" then defaultModel else n

/-- Python str.endswith, spelled over the character list. -/
def strEndsWith (s post : String) : Bool :=
  decide (s.data.drop (s.data.length - post.data.length) = post.data)

/-- main.py lines 93-101: the body of the load try block — suffix dispatch
on the model path, with ValueError for an unsupported format; a failing
store models pickle.load or joblib.load raising. strEndsWith is Python
str.endswith spelled over the character list. -/
def loadAttempt (store : String → Except String Predictor) (modelDir name : String) :
    Except String Predictor :=
  if strEndsWith name ".pkl" ∨ strEndsWith name ".joblib" then
    store (modelDir ++ "/" ++ name)
  else
    .error ("Unsupported model format: " ++ (modelDir ++ "/" ++ name))

/-- main.py lines 83-107, `load_model`: the artifact store models the
filesystem plus deserialization — it maps a model path to a Predictor or to
the message of the exception the load raised (missing file, corrupt
pickle). Every load failure is converted by the except clause to
HTTPException(500, "Error loading model: " + str(e)); no branch ever
produces a 503 status or the detail "Model not loaded". -/
def load_model (store : String → Except String Predictor) (modelDir name : String) :
    Except (Nat × String) Predictor :=
  match loadAttempt store modelDir name with
  | .ok m => .ok m
  | .error e => .error (500, "Error loading model: " ++ e)

/-- main.py lines 148-210: the full /predict endpoint — resolve the model
name, load the model (load failures escape as raised before the `try`),
then run the guarded handler body. -/
def predictEndpoint (store : String → Except String Predictor)
    (modelDir defaultModel : String) (reqName : Option String)
    (features : Feats) (s : MetricsState) :
    Except (Nat × String) PredictionResponse × MetricsState :=
  let modelName := resolveName reqName defaultModel
  match load_model store modelDir modelName with
  | .error e => (.error e, s)
  | .ok model => predictHandler model modelName features s

/-- A predictor declaring the feature schema ["a", "b"]; its predict fails
with a recognizable message, so any outcome other than that message shows
predict was never invoked. -/
def mC1 : Predictor :=
  { feature_names_in_ := some ["a", "b"]
    predict := fun _ => .error "predict was invoked"
    predict_proba := none
    classes_ := [] }

/-- A 3-class predictor: predicts class 2 with probabilities
[0.1, 0.2, 0.7], as in the multiclass scenario of the test suite. -/
def mC3 : Predictor :=
  { feature_names_in_ := none
    predict := fun _ => .ok 2
    predict_proba := some (fun _ => .ok [1/10, 2/10, 7/10])
    classes_ := [0, 1, 2] }

/-- A 2-class predictor predicting the FIRST class with probabilities
[0.6, 0.4]: the probability of the positive (second) class is 0.4, while
the probability of the predicted class is 0.6. -/
def mC3bin : Predictor :=
  { feature_names_in_ := none
    predict := fun _ => .ok 0
    predict_proba := some (fun _ => .ok [3/5, 2/5])
    classes_ := [0, 1] }

/-- A predictor whose predict succeeds with label 5 but whose class list
does not contain 5, so the probability computation (the classes_ lookup)
raises ValueError. -/
def mC4 : Predictor :=
  { feature_names_in_ := none
    predict := fun _ => .ok 5
    predict_proba := some (fun _ => .ok [1/2, 1/2])
    classes_ := [0, 1] }

/-- A regressor: no schema, no predict_proba, predicts 3.14 (= 157/50). -/
def mC8 : Predictor :=
  { feature_names_in_ := none
    predict := fun _ => .ok (157/50)
    predict_proba := none
    classes_ := [] }

theorem statStep_buffer (m : String) (preds : List Feats) (st : MetricsState)
    (n : String) : (statStep m preds st n).buffer = st.buffer := by
  unfold statStep
  split
  · rfl
  · split <;> rfl

theorem fold_statStep_buffer (m : String) (preds : List Feats)
    (names : List String) (st : MetricsState) :
    (names.foldl (statStep m preds) st).buffer = st.buffer := by
  induction names generalizing st with
  | nil => rfl
  | cons n rest ih =>
      simp only [List.foldl_cons]
      rw [ih, statStep_buffer]

theorem updateFS_buffer (m : String) (preds : List Feats) (s : MetricsState) :
    (updateFeatureStatistics m preds s).buffer = s.buffer := by
  unfold updateFeatureStatistics
  split
  · rfl
  · exact fold_statStep_buffer m preds _ s

theorem record_buffer (m : String) (f : Feats) (c : String) (s : MetricsState) :
    (record_prediction m f c s).buffer = evictLoop (s.buffer ++ [f]) := by
  unfold record_prediction
  simp only []
  rw [updateFS_buffer]

theorem statStep_featureMean_self (m : String) (preds : List Feats)
    (st : MetricsState) (n : String) (h : gatherValues preds n ≠ []) :
    (statStep m preds st n).featureMean m n
      = some (listMean (gatherValues preds n)) := by
  have hE : (gatherValues preds n).isEmpty = false := by
    simpa [List.isEmpty_iff] using h
  unfold statStep
  rw [hE]
  by_cases h2 : 1 < (gatherValues preds n).length <;> simp [h2, setG]

theorem statStep_featureMean_other (m : String) (preds : List Feats)
    (st : MetricsState) (n mo fe : String) (hne : mo ≠ m ∨ fe ≠ n) :
    (statStep m preds st n).featureMean mo fe = st.featureMean mo fe := by
  have hc : ¬ (mo = m ∧ fe = n) := by tauto
  unfold statStep
  split
  · rfl
  · split <;> simp [setG, hc]

theorem statStep_featureStddevSq_self (m : String) (preds : List Feats)
    (st : MetricsState) (n : String) (h2 : 1 < (gatherValues preds n).length) :
    (statStep m preds st n).featureStddevSq m n
      = some (listPopVar (gatherValues preds n)) := by
  have hE : (gatherValues preds n).isEmpty = false := by
    simp [List.isEmpty_iff]
    intro hh
    rw [hh] at h2
    simp at h2
  unfold statStep
  rw [hE]
  simp [h2, setG]

theorem statStep_featureStddevSq_preserved (m : String) (preds : List Feats)
    (st : MetricsState) (n mo fe : String)
    (h : (gatherValues preds n).length ≤ 1 ∨ ¬ (mo = m ∧ fe = n)) :
    (statStep m preds st n).featureStddevSq mo fe = st.featureStddevSq mo fe := by
  unfold statStep
  split
  · rfl
  · split
    · rename_i hlt
      rcases h with h | h
      · omega
      · simp [setG, h]
    · rfl

theorem fold_featureMean_not_mem (m : String) (preds : List Feats) (fe : String)
    (names : List String) (hfe : fe ∉ names) (mo : String) (st : MetricsState) :
    ((names.foldl (statStep m preds) st).featureMean mo fe)
      = st.featureMean mo fe := by
  induction names generalizing st with
  | nil => rfl
  | cons n rest ih =>
      have h1 : fe ≠ n := fun hh => hfe (by simp [hh])
      have h2 : fe ∉ rest := fun hh => hfe (by simp [hh])
      simp only [List.foldl_cons]
      rw [ih h2, statStep_featureMean_other m preds st n mo fe (Or.inr h1)]

theorem fold_featureMean_mem (m : String) (preds : List Feats) (fe : String)
    (names : List String) (hmem : fe ∈ names)
    (hne : gatherValues preds fe ≠ []) (st : MetricsState) :
    ((names.foldl (statStep m preds) st).featureMean m fe)
      = some (listMean (gatherValues preds fe)) := by
  induction names generalizing st with
  | nil => cases hmem
  | cons n rest ih =>
      simp only [List.foldl_cons]
      by_cases hrest : fe ∈ rest
      · exact ih hrest _
      · have heq : fe = n := by
          rcases List.mem_cons.mp hmem with h | h
          · exact h
          · exact absurd h hrest
        subst heq
        rw [fold_featureMean_not_mem m preds fe rest hrest m _]
        exact statStep_featureMean_self m preds st fe hne

theorem fold_featureStddevSq_not_mem (m : String) (preds : List Feats)
    (fe : String) (names : List String) (hfe : fe ∉ names) (mo : String)
    (st : MetricsState) :
    ((names.foldl (statStep m preds) st).featureStddevSq mo fe)
      = st.featureStddevSq mo fe := by
  induction names generalizing st with
  | nil => rfl
  | cons n rest ih =>
      have h1 : fe ≠ n := fun hh => hfe (by simp [hh])
      have h2 : fe ∉ rest := fun hh => hfe (by simp [hh])
      simp only [List.foldl_cons]
      rw [ih h2, statStep_featureStddevSq_preserved m preds st n mo fe
        (Or.inr (by tauto))]

theorem fold_featureStddevSq_small (m : String) (preds : List Feats)
    (fe : String) (names : List String)
    (h : (gatherValues preds fe).length ≤ 1) (mo : String) (st : MetricsState) :
    ((names.foldl (statStep m preds) st).featureStddevSq mo fe)
      = st.featureStddevSq mo fe := by
  induction names generalizing st with
  | nil => rfl
  | cons n rest ih =>
      simp only [List.foldl_cons]
      rw [ih]
      by_cases heq : fe = n
      · subst heq
        exact statStep_featureStddevSq_preserved m preds st fe mo fe (Or.inl h)
      · exact statStep_featureStddevSq_preserved m preds st n mo fe
          (Or.inr (by tauto))

theorem fold_featureStddevSq_mem (m : String) (preds : List Feats) (fe : String)
    (names : List String) (hmem : fe ∈ names)
    (h2 : 1 < (gatherValues preds fe).length) (st : MetricsState) :
    ((names.foldl (statStep m preds) st).featureStddevSq m fe)
      = some (listPopVar (gatherValues preds fe)) := by
  induction names generalizing st with
  | nil => cases hmem
  | cons n rest ih =>
      simp only [List.foldl_cons]
      by_cases hrest : fe ∈ rest
      · exact ih hrest _
      · have heq : fe = n := by
          rcases List.mem_cons.mp hmem with h | h
          · exact h
          · exact absurd h hrest
        subst heq
        rw [fold_featureStddevSq_not_mem m preds fe rest hrest m _]
        exact statStep_featureStddevSq_self m preds st fe h2

theorem updateFS_eq_fold (m : String) (preds : List Feats) (s : MetricsState)
    (hne : preds ≠ []) :
    updateFeatureStatistics m preds s
      = (keysOf (preds.headD [])).foldl (statStep m preds) s := by
  have hE : preds.isEmpty = false := by simpa [List.isEmpty_iff] using hne
  unfold updateFeatureStatistics
  simp only [hE, Bool.false_eq_true, if_false]

theorem hasKey_of_mem_keys (p : Feats) (fe : String) (h : fe ∈ keysOf p) :
    hasKey p fe = true := by
  induction p with
  | nil => cases h
  | cons kv rest ih =>
      rcases List.mem_cons.mp h with h | h
      · simp [hasKey, flookup, h]
      · by_cases heq : fe = kv.1
        · simp [hasKey, flookup, heq]
        · have := ih h
          simp only [hasKey, flookup] at this ⊢
          rcases kv with ⟨k, v⟩
          simp only at heq
          rw [if_neg heq]
          exact this

theorem gather_ne_nil_of_mem_head (preds : List Feats) (fe : String)
    (hne : preds ≠ []) (hfe : fe ∈ keysOf (preds.headD [])) :
    gatherValues preds fe ≠ [] := by
  cases preds with
  | nil => exact absurd rfl hne
  | cons p rest =>
      have hk : hasKey p fe = true := hasKey_of_mem_keys p fe (by simpa using hfe)
      simp [gatherValues, List.filter_cons, hk]

theorem evictFuel_eq_drop (n : Nat) (l : List Feats)
    (h : l.length - _BUFFER_SIZE ≤ n) :
    evictFuel n l = l.drop (l.length - _BUFFER_SIZE) := by
  induction n generalizing l with
  | zero =>
      have h0 : l.length - _BUFFER_SIZE = 0 := by omega
      simp [evictFuel, h0]
  | succ k ih =>
      unfold evictFuel
      by_cases hl : _BUFFER_SIZE < l.length
      · rw [if_pos hl]
        cases l with
        | nil => simp [_BUFFER_SIZE] at hl
        | cons a t =>
            have ht : t.length - _BUFFER_SIZE ≤ k := by
              simp only [List.length_cons] at h
              omega
            have h100 : (a :: t).length - _BUFFER_SIZE
                = (t.length - _BUFFER_SIZE) + 1 := by
              simp only [List.length_cons] at hl ⊢
              omega
            simp only [List.tail_cons]
            rw [ih t ht, h100, List.drop_succ_cons]
      · rw [if_neg hl]
        have h0 : l.length - _BUFFER_SIZE = 0 := by omega
        simp [h0]

theorem evictLoop_eq_drop (l : List Feats) :
    evictLoop l = l.drop (l.length - _BUFFER_SIZE) :=
  evictFuel_eq_drop l.length l (by omega)

theorem length_evictLoop (l : List Feats) :
    (evictLoop l).length = min l.length _BUFFER_SIZE := by
  rw [evictLoop_eq_drop, List.length_drop]
  omega

theorem evictLoop_ne_nil (l : List Feats) (h : l ≠ []) : evictLoop l ≠ [] := by
  have h1 : 0 < l.length := List.length_pos.mpr h
  have h2 : 0 < (evictLoop l).length := by
    rw [length_evictLoop]
    have : 0 < _BUFFER_SIZE := by simp [_BUFFER_SIZE]
    omega
  exact List.ne_nil_of_length_pos h2

theorem record_featureMean_eq (m : String) (f : Feats) (c : String)
    (s : MetricsState) :
    (record_prediction m f c s).featureMean
      = (updateFeatureStatistics m (evictLoop (s.buffer ++ [f]))
          { predictionCount := bump s.predictionCount m c
            buffer := evictLoop (s.buffer ++ [f])
            featureMean := s.featureMean
            featureStddevSq := s.featureStddevSq
            latencyObsCount := s.latencyObsCount }).featureMean := rfl

theorem runPredictions_cons (r : String × Feats × String)
    (rest : List (String × Feats × String)) (s : MetricsState) :
    runPredictions (r :: rest) s
      = runPredictions rest (record_prediction r.1 r.2.1 r.2.2 s) := rfl

theorem runPredictions_buffer (recs : List (String × Feats × String)) :
    ∀ s : MetricsState, s.buffer.length ≤ _BUFFER_SIZE →
    (runPredictions recs s).buffer
      = (s.buffer ++ recs.map (fun r => r.2.1)).drop
          ((s.buffer.length + recs.length) - _BUFFER_SIZE) := by
  induction recs with
  | nil =>
      intro s h
      have h0 : s.buffer.length - _BUFFER_SIZE = 0 := by omega
      simp [runPredictions, h0]
  | cons r rest ih =>
      intro s h
      have hrec : (record_prediction r.1 r.2.1 r.2.2 s).buffer
          = (s.buffer ++ [r.2.1]).drop ((s.buffer.length + 1) - _BUFFER_SIZE) := by
        rw [record_buffer, evictLoop_eq_drop]
        simp [List.length_append]
      have hlen : (record_prediction r.1 r.2.1 r.2.2 s).buffer.length
          ≤ _BUFFER_SIZE := by
        rw [record_buffer, length_evictLoop]
        omega
      rw [runPredictions_cons, ih _ hlen, hrec]
      have hk : (s.buffer.length + 1) - _BUFFER_SIZE
          ≤ (s.buffer ++ [r.2.1]).length := by
        simp only [List.length_append, List.length_cons, List.length_nil]
        omega
      rw [List.length_drop, ← List.drop_append_of_le_length hk, List.drop_drop]
      have hlist : (s.buffer ++ [r.2.1]) ++ rest.map (fun r => r.2.1)
          = s.buffer ++ (r :: rest).map (fun r => r.2.1) := by
        simp
      rw [hlist]
      congr 1
      simp only [List.length_append, List.length_cons, List.length_nil,
        List.length_map]
      omega

/-- C5: for every sequence of record_prediction calls from process start,
the buffer equals the suffix of the recorded feature mappings starting at
index (k - 100) — i.e. the at-most-100 most recent mappings in FIFO order,
the oldest evicted — and its length is min k 100: never above 100, and
exactly 100 as soon as more than 100 predictions were recorded. -/
theorem c5_buffer_capacity_and_fifo (recs : List (String × Feats × String)) :
    (runPredictions recs initState).buffer
      = (recs.map (fun r => r.2.1)).drop (recs.length - _BUFFER_SIZE)
    ∧ (runPredictions recs initState).buffer.length
      = min recs.length _BUFFER_SIZE := by
  have h := runPredictions_buffer recs initState (by simp [initState])
  have hb : initState.buffer = [] := rfl
  rw [hb] at h
  simp only [List.nil_append, List.length_nil, Nat.zero_add] at h
  refine ⟨h, ?_⟩
  rw [h, List.length_drop, List.length_map]
  omega

/-- C6 counterexample: with buffer [ {"a": 1}, {"b": 2} ] (oldest first),
the most recent entry is {"b": 2}, yet recomputation never touches the
mean gauge for "b" and instead processes "a", the feature set of the
OLDEST entry — refuting the claim that iteration follows the most recent
entry. -/
theorem c6_counterexample_iterates_oldest :
    (updateFeatureStatistics "m" [[("a", 1)], [("b", 2)]] initState).featureMean
      "m" "b" = none
    ∧ (updateFeatureStatistics "m" [[("a", 1)], [("b", 2)]] initState).featureMean
      "m" "a" = some 1 := by
  constructor <;>
    simp [updateFeatureStatistics, keysOf, statStep, gatherValues, hasKey,
      flookup, listMean, listPopVar, setG, initState]

/-- C6 amended: statistics recomputation iterates exactly over the feature
names of the OLDEST buffered entry (index 0): a feature of that entry with
a nonempty gathered value list gets its mean gauge set, a feature not in
that entry is untouched (even when it appears in the most recent entry),
and the values are gathered only from buffered entries containing the key —
the `get` default is never consulted (replacing it by any d changes
nothing), so absent entries are skipped, never imputed. -/
theorem c6_amended_oldest_entry_and_no_imputation (m : String)
    (preds : List Feats) (s : MetricsState) (fe : String) (hne : preds ≠ []) :
    (fe ∈ keysOf (preds.headD []) → gatherValues preds fe ≠ [] →
      (updateFeatureStatistics m preds s).featureMean m fe
        = some (listMean (gatherValues preds fe)))
    ∧ (fe ∉ keysOf (preds.headD []) → ∀ mo,
      (updateFeatureStatistics m preds s).featureMean mo fe
        = s.featureMean mo fe)
    ∧ (∀ d : ℚ, (preds.filter (fun p => hasKey p fe)).map
        (fun p => (flookup p fe).getD d) = gatherValues preds fe) := by
  refine ⟨?_, ?_, ?_⟩
  · intro hfe hg
    rw [updateFS_eq_fold m preds s hne]
    exact fold_featureMean_mem m preds fe _ hfe hg s
  · intro hfe mo
    rw [updateFS_eq_fold m preds s hne]
    exact fold_featureMean_not_mem m preds fe _ hfe mo s
  · intro d
    unfold gatherValues
    apply List.map_congr_left
    intro p hp
    have hkey : hasKey p fe = true := (List.mem_filter.mp hp).2
    simp only [hasKey, Option.isSome_iff_exists] at hkey
    rcases hkey with ⟨v, hv⟩
    simp [hv]

/-- C6 amended, witness: the concrete buffer [ {"a": 1}, {"b": 2} ]. -/
theorem c6_amended_witness :
    ("a" ∈ keysOf (([[("a", (1:ℚ))], [("b", 2)]] : List Feats).headD []) →
      gatherValues [[("a", 1)], [("b", 2)]] "a" ≠ [] →
      (updateFeatureStatistics "m" [[("a", 1)], [("b", 2)]] initState).featureMean
        "m" "a" = some (listMean (gatherValues [[("a", 1)], [("b", 2)]] "a")))
    ∧ ("a" ∉ keysOf (([[("a", (1:ℚ))], [("b", 2)]] : List Feats).headD []) → ∀ mo,
      (updateFeatureStatistics "m" [[("a", 1)], [("b", 2)]] initState).featureMean
        mo "a" = initState.featureMean mo "a")
    ∧ (∀ d : ℚ, (([[("a", (1:ℚ))], [("b", 2)]] : List Feats).filter
        (fun p => hasKey p "a")).map (fun p => (flookup p "a").getD d)
        = gatherValues [[("a", 1)], [("b", 2)]] "a") :=
  c6_amended_oldest_entry_and_no_imputation "m" [[("a", 1)], [("b", 2)]]
    initState "a" (by decide)

/-- C7: for every feature of the oldest buffered entry, the mean gauge is
set to the arithmetic mean Σv/n of the gathered values; with at least 2
values the stddev gauge receives the square root of the population
variance Σ(x-mean)²/n (featureStddevSq stores that radicand); with exactly
1 value the mean is set but the stddev gauge keeps its previous value (no
emission). -/
theorem c7_mean_and_population_stddev (m fe : String) (preds : List Feats)
    (s : MetricsState) (hne : preds ≠ []) (hfe : fe ∈ keysOf (preds.headD [])) :
    (updateFeatureStatistics m preds s).featureMean m fe
      = some ((gatherValues preds fe).sum / ((gatherValues preds fe).length : ℚ))
    ∧ (1 < (gatherValues preds fe).length →
        (updateFeatureStatistics m preds s).featureStddevSq m fe
          = some (((gatherValues preds fe).map
              (fun x => (x - (gatherValues preds fe).sum /
                ((gatherValues preds fe).length : ℚ)) ^ 2)).sum
            / ((gatherValues preds fe).length : ℚ)))
    ∧ ((gatherValues preds fe).length = 1 →
        (updateFeatureStatistics m preds s).featureStddevSq m fe
          = s.featureStddevSq m fe) := by
  have hg : gatherValues preds fe ≠ [] := gather_ne_nil_of_mem_head preds fe hne hfe
  rw [updateFS_eq_fold m preds s hne]
  refine ⟨?_, ?_, ?_⟩
  · have h := fold_featureMean_mem m preds fe _ hfe hg s
    simpa [listMean] using h
  · intro h2
    have h := fold_featureStddevSq_mem m preds fe _ hfe h2 s
    simpa [listPopVar, listMean] using h
  · intro h1
    exact fold_featureStddevSq_small m preds fe _ (by omega) m s

/-- C7 witness: buffer [ {"x": 1}, {"x": 3} ] — mean 2, population
variance 1 for feature "x". -/
theorem c7_witness :
    (updateFeatureStatistics "m" [[("x", (1:ℚ))], [("x", 3)]] initState).featureMean
      "m" "x" = some ((gatherValues [[("x", (1:ℚ))], [("x", 3)]] "x").sum /
        ((gatherValues [[("x", (1:ℚ))], [("x", 3)]] "x").length : ℚ))
    ∧ (1 < (gatherValues [[("x", (1:ℚ))], [("x", 3)]] "x").length →
        (updateFeatureStatistics "m" [[("x", (1:ℚ))], [("x", 3)]]
          initState).featureStddevSq "m" "x"
          = some (((gatherValues [[("x", (1:ℚ))], [("x", 3)]] "x").map
              (fun x => (x - (gatherValues [[("x", (1:ℚ))], [("x", 3)]] "x").sum /
                ((gatherValues [[("x", (1:ℚ))], [("x", 3)]] "x").length : ℚ)) ^ 2)).sum
            / ((gatherValues [[("x", (1:ℚ))], [("x", 3)]] "x").length : ℚ)))
    ∧ ((gatherValues [[("x", (1:ℚ))], [("x", 3)]] "x").length = 1 →
        (updateFeatureStatistics "m" [[("x", (1:ℚ))], [("x", 3)]]
          initState).featureStddevSq "m" "x"
          = initState.featureStddevSq "m" "x") :=
  c7_mean_and_population_stddev "m" "x" [[("x", 1)], [("x", 3)]] initState
    (by decide) (by decide)

/-- C9 counterexample: recording {"x": 1} under model "A" and then
{"x": 3} under model "B" leaves the mean gauge for ("B", "x") at 2 — the
mean over BOTH buffered entries — not 3, the mean of the mappings recorded
under "B": the buffer is shared, so statistics for "B" are not derived
exclusively from mappings recorded under "B". -/
theorem c9_counterexample_cross_model_contamination :
    (record_prediction "B" [("x", 3)] "c"
        (record_prediction "A" [("x", 1)] "c" initState)).featureMean "B" "x"
      = some 2
    ∧ ¬ (record_prediction "B" [("x", 3)] "c"
        (record_prediction "A" [("x", 1)] "c" initState)).featureMean "B" "x"
      = some 3 := by
  have h : (record_prediction "B" [("x", 3)] "c"
      (record_prediction "A" [("x", 1)] "c" initState)).featureMean "B" "x"
      = some 2 := by
    simp [record_prediction, updateFeatureStatistics, keysOf, statStep,
      gatherValues, hasKey, flookup, listMean, listPopVar, setG, bump, bump1,
      initState, evictLoop, evictFuel, _BUFFER_SIZE]
    norm_num
  refine ⟨h, ?_⟩
  rw [h]
  norm_num

/-- C9 amended: the predictions buffer is a single module-global list, not
keyed by model name: the buffer contents after record_prediction do not
depend on which model name (or class) the prediction was recorded under,
so recording for model A changes the buffered data that a later
recomputation for model B reads. -/
theorem c9_amended_buffer_is_global_unkeyed (m₁ m₂ c₁ c₂ : String) (f : Feats)
    (s : MetricsState) :
    (record_prediction m₁ f c₁ s).buffer = (record_prediction m₂ f c₂ s).buffer := by
  rw [record_buffer, record_buffer]

/-- C10: record_prediction appends the new entry before recomputation, so
the buffer handed to _update_feature_statistics is never empty (the
empty-buffer early return is unreachable on this path), and every feature
of the entry at index 0 gathers at least one value — its mean gauge is set
on every recorded prediction. -/
theorem c10_recompute_sees_nonempty_buffer (m c : String) (f : Feats)
    (s : MetricsState) :
    (record_prediction m f c s).buffer ≠ []
    ∧ ∀ fe, fe ∈ keysOf ((record_prediction m f c s).buffer.headD []) →
        ∃ v, (record_prediction m f c s).featureMean m fe = some v := by
  have hbuf : (record_prediction m f c s).buffer = evictLoop (s.buffer ++ [f]) :=
    record_buffer m f c s
  have hnil : evictLoop (s.buffer ++ [f]) ≠ [] := evictLoop_ne_nil _ (by simp)
  constructor
  · rw [hbuf]
    exact hnil
  · intro fe hfe
    rw [hbuf] at hfe
    have hg : gatherValues (evictLoop (s.buffer ++ [f])) fe ≠ [] :=
      gather_ne_nil_of_mem_head _ fe hnil hfe
    rw [record_featureMean_eq, updateFS_eq_fold _ _ _ hnil]
    exact ⟨_, fold_featureMean_mem m _ fe _ hfe hg _⟩

theorem buildX_missing (q : Predictor) (schema : List String) (features : Feats)
    (hq : q.feature_names_in_ = some schema)
    (hE : (missingOf schema features).isEmpty = false) :
    buildX q features = .error (.httpExc 400 ("Missing required features: " ++
      String.intercalate ", " (missingOf schema features))) := by
  unfold buildX
  rw [hq]
  simp [hE]

/-- C1: when the predictor declares a feature schema and at least one
required feature is missing, the handler raises HTTPException(400) listing
the missing names — but the blanket except clause catches it and the
request actually fails with HTTP 500 whose detail wraps the 400 message.
The metrics state is returned untouched (record_prediction is never
invoked), and the outcome is identical for any predictor with the same
schema (predict is never invoked). -/
theorem c1_missing_features_convert_to_500 (model : Predictor)
    (schema : List String) (mn : String) (features : Feats) (s : MetricsState)
    (hschema : model.feature_names_in_ = some schema)
    (hmiss : missingOf schema features ≠ []) :
    predictHandler model mn features s
      = (.error (500, "Prediction error: " ++ strOfExc (.httpExc 400
          ("Missing required features: " ++
            String.intercalate ", " (missingOf schema features)))), s)
    ∧ ∀ q : Predictor, q.feature_names_in_ = some schema →
        predictHandler q mn features s = predictHandler model mn features s := by
  have hE : (missingOf schema features).isEmpty = false := by
    simpa [List.isEmpty_iff] using hmiss
  have hbody : ∀ q : Predictor, q.feature_names_in_ = some schema →
      predictHandler q mn features s
        = (.error (500, "Prediction error: " ++ strOfExc (.httpExc 400
            ("Missing required features: " ++
              String.intercalate ", " (missingOf schema features)))), s) := by
    intro q hq
    unfold predictHandler predictBody
    rw [buildX_missing q schema features hq hE]
  exact ⟨hbody model hschema,
    fun q hq => (hbody q hq).trans (hbody model hschema).symm⟩

/-- C1 witness: predictor with schema ["a", "b"] and request providing
only "a". -/
theorem c1_witness :
    predictHandler mC1 "m.pkl" [("a", (1:ℚ))] initState
      = (.error (500, "Prediction error: " ++ strOfExc (.httpExc 400
          ("Missing required features: " ++
            String.intercalate ", " (missingOf ["a", "b"] [("a", (1:ℚ))])))),
         initState)
    ∧ ∀ q : Predictor, q.feature_names_in_ = some ["a", "b"] →
        predictHandler q "m.pkl" [("a", (1:ℚ))] initState
          = predictHandler mC1 "m.pkl" [("a", (1:ℚ))] initState :=
  c1_missing_features_convert_to_500 mC1 ["a", "b"] "m.pkl" [("a", 1)]
    initState rfl (by decide)

/-- C2: whenever the model artifact cannot be loaded, the endpoint fails
with HTTP 500 and detail "Error loading model: " followed by the original
exception message — never with 503 and never with the detail
"Model not loaded" —, leaving the metrics state untouched. -/
theorem c2_load_failure_is_500_not_503
    (store : String → Except String Predictor) (modelDir defaultModel : String)
    (reqName : Option String) (features : Feats) (s : MetricsState) (e : String)
    (h : loadAttempt store modelDir (resolveName reqName defaultModel)
      = .error e) :
    predictEndpoint store modelDir defaultModel reqName features s
      = (.error (500, "Error loading model: " ++ e), s)
    ∧ ((500 : Nat), "Error loading model: " ++ e)
      ≠ ((503 : Nat), "Model not loaded") := by
  constructor
  · unfold predictEndpoint load_model
    simp only [h]
  · simp

/-- C2 witness: a store in which every load raises (missing artifact),
with the default model name "iris.pkl". -/
theorem c2_witness :
    predictEndpoint (fun _ => .error "No such file or directory") "models"
      "iris.pkl" none [] initState
      = (.error (500, "Error loading model: " ++ "No such file or directory"),
         initState)
    ∧ ((500 : Nat), "Error loading model: " ++ "No such file or directory")
      ≠ ((503 : Nat), "Model not loaded") :=
  c2_load_failure_is_500_not_503 (fun _ => .error "No such file or directory")
    "models" "iris.pkl" none [] initState "No such file or directory" rfl

/-- C3: the code emits a scalar probability — that of the PREDICTED class —
for every predictor with predict_proba, regardless of the number of
classes, and the response model has no confidence field at all. For the
3-class predictor of the test scenario (probabilities [0.1, 0.2, 0.7],
predicted class 2) the response carries probability 0.7 instead of a
3-entry confidence mapping; for a binary predictor predicting the first
class with probabilities [0.6, 0.4] it carries 0.6 — the predicted class —
not 0.4, the positive (second) class. -/
theorem c3_scalar_probability_of_predicted_class :
    (predictHandler mC3 "model.pkl" [("feature1", 1/2), ("feature2", 7/10)]
        initState).1
      = .ok { prediction := pyStr 2, probability := 7/10,
              model_name := "model.pkl", model_version := "1.0.0" }
    ∧ (predictHandler mC3bin "model.pkl" [("feature1", 1/2), ("feature2", 7/10)]
        initState).1
      = .ok { prediction := pyStr 0, probability := 3/5,
              model_name := "model.pkl", model_version := "1.0.0" } := by
  constructor
  · simp [predictHandler, predictBody, buildX, computeProbability, mC3, idxOf]
  · simp [predictHandler, predictBody, buildX, computeProbability, mC3bin, idxOf]

/-- C4 counterexample: predict succeeds (label 5) but the probability
computation fails (5 is not in classes_ [0, 1]); the claim says the
request still succeeds with HTTP 200 — in fact the whole request fails
with HTTP 500 and the metrics state is untouched (record_prediction is
never reached). -/
theorem c4_counterexample_proba_failure_fails_request :
    predictHandler mC4 "m.pkl" [("feature1", 1/2)] initState
      = (.error (500, "Prediction error: " ++ strOfExc
          (.runtimeExc (pyStr (5:ℚ) ++ " is not in list"))), initState) := by
  simp [predictHandler, predictBody, buildX, computeProbability, mC4, idxOf,
    strOfExc]

/-- C4 amended: when predict succeeds but the probability computation
(predict_proba, the classes_ lookup, or the row indexing) raises, the
exception escapes to the blanket handler and the whole request fails with
HTTP 500 ("Prediction error: ..."); the prediction is not returned, the
failure is not swallowed, and record_prediction is not invoked (state
unchanged). -/
theorem c4_amended_proba_failure_fails_whole_request (model : Predictor)
    (mn : String) (features : Feats) (s : MetricsState) (X : List ℚ) (pred : ℚ)
    (e : PyExc) (hX : buildX model features = .ok X)
    (hp : model.predict X = .ok pred)
    (hprob : computeProbability model X pred = .error e) :
    predictHandler model mn features s
      = (.error (500, "Prediction error: " ++ strOfExc e), s) := by
  unfold predictHandler predictBody
  simp only [hX, hp, hprob]

/-- C4 amended, witness: the concrete predictor mC4 whose classes_ lookup
fails. -/
theorem c4_amended_witness :
    predictHandler mC4 "m2.pkl" [("feature1", (1:ℚ))] initState
      = (.error (500, "Prediction error: " ++ strOfExc
          (.runtimeExc (pyStr (5:ℚ) ++ " is not in list"))), initState) :=
  c4_amended_proba_failure_fails_whole_request mC4 "m2.pkl" [("feature1", 1)]
    initState [1] 5 (.runtimeExc (pyStr (5:ℚ) ++ " is not in list"))
    (by simp [buildX, mC4]) rfl
    (by simp [computeProbability, mC4, idxOf])

/-- C8: for a regressor without predict_proba returning 3.14, the response
still carries a probability key with value 0.0 (the response model makes
probability mandatory and the handler defaults it to 0.0), and the
prediction value is stringified — refuting the claimed
{"prediction": 3.14} with no probability key. -/
theorem c8_regression_response_keeps_probability_key :
    (predictHandler mC8 "m.pkl" [("feature1", 1/2), ("feature2", 7/10)]
        initState).1
      = .ok { prediction := pyStr (157/50), probability := 0,
              model_name := "m.pkl", model_version := "1.0.0" } := by
  simp [predictHandler, predictBody, buildX, computeProbability, mC8]

/-- C10 witness: recording {"x": 1} for model "m" from the initial state. -/
theorem c10_witness :
    (record_prediction "m" [("x", (1:ℚ))] "c" initState).buffer ≠ []
    ∧ ∃ v, (record_prediction "m" [("x", (1:ℚ))] "c" initState).featureMean
        "m" "x" = some v :=
  ⟨(c10_recompute_sees_nonempty_buffer "m" "c" [("x", 1)] initState).1,
   (c10_recompute_sees_nonempty_buffer "m" "c" [("x", 1)] initState).2 "x"
     (by decide)⟩

end MLApp
